import Mathlib

/-!
Verification development for the aiohttp-client repository.

The Python source is shallowly embedded:
- `src/async_client_response.py` (AsyncClientResponse dataclass, `__post_init__`,
  `is_error`) becomes `AsyncClientResponse` / `mkResponse` / `AsyncClientResponse.is_error`;
- `src/aiohttp_client/async_client.py` (the canonical AsyncClient: `_retry`,
  `_request`, url resolution, rate-limit gate, session `stop`) becomes
  `retryStep` / `runAttempts` / `executeRequest` / `effectiveUrl` / `AsyncClient.stop`.

Python values appearing in JSON payloads are modelled by `PyVal` (strings,
integers, booleans, null); dictionaries by association lists looked up at the
first matching key, which agrees with Python dict semantics since dict keys are
unique.  Exception classes are modelled by the closed enumeration `ExcClass`
together with the subclass relation `ancestors` copied from the aiohttp /
asyncio / json class hierarchy (only the classes the source names, plus
representatives for unrelated exceptions).
-/

/-- A JSON-decoded Python value, restricted to the scalar shapes the claims
exercise. -/
inductive PyVal where
  | str (s : String)
  | int (n : Int)
  | bool (b : Bool)
  | null
deriving Repr, DecidableEq

/-- Python truthiness of a `PyVal` (`bool(v)`). -/
def truthy : PyVal → Bool
  | PyVal.str s => s != ""
  | PyVal.int n => n != 0
  | PyVal.bool b => b
  | PyVal.null => false

/-- Python `str(v)` of a `PyVal`. -/
def pyStr : PyVal → String
  | PyVal.str s => s
  | PyVal.int n => toString n
  | PyVal.bool b => if b then "True" else "False"
  | PyVal.null => "None"

/-- Lookup in a Python dict modelled as an association list (`d.get(k)`,
first occurrence wins; Python dicts have unique keys). -/
def pyLookup (d : List (String × PyVal)) (k : String) : Option PyVal :=
  (d.find? (fun kv => kv.1 = k)).map (fun kv => kv.2)

/-- Python `bool(x)` for an optional string field (`None` and `""` are falsy). -/
def optNonEmpty : Option String → Bool
  | none => false
  | some s => s != ""

/-- The `AsyncClientResponse` dataclass of `src/async_client_response.py`
after `__post_init__` has run: fields `code`, `text`, `data`, `error`,
`reason`, `_is_error`. -/
structure AsyncClientResponse where
  code : Nat
  text : String
  data : List (String × PyVal)
  error : Option String
  reason : String
  _is_error : Bool
deriving Repr, DecidableEq

/-- The keys probed by `__post_init__`, in the order they are written in the
source.  The source iterates the set literal `"error", "errors",
"error_message"`; CPython set iteration order is implementation-defined, so
the model fixes the order in which the source text enumerates the keys. -/
def errorKeys : List String := ["error", "errors", "error_message"]

/-- The walrus scan
`any((matched_key := key) in self.data for key in ...)`: the first probed key
that is present in the payload, if any. -/
def matchedKey (d : List (String × PyVal)) : Option String :=
  errorKeys.find? (fun k => (pyLookup d k).isSome)

/-- Construction of an `AsyncClientResponse`: dataclass field assignment
followed by `__post_init__`.  Argument order matches the dataclass:
`code`, `text`, `data`, `error`, `reason`, `_is_error`; `data` is `None`-able
and replaced by the empty dict (`self.data = {} if not self.data else
self.data`). -/
def mkResponse (code : Nat) (text : String) (data : Option (List (String × PyVal)))
    (error : Option String) (reason : String) (isErrArg : Bool) : AsyncClientResponse :=
  let d := data.getD []
  match matchedKey d with
  | some k =>
      let v := (pyLookup d k).getD PyVal.null
      if truthy v then
        { code := code, text := text, data := d,
          error := some (if truthy v then pyStr v else reason ++ " - " ++ text),
          reason := reason, _is_error := true }
      else
        { code := code, text := text, data := d, error := error,
          reason := reason, _is_error := isErrArg }
  | none =>
      if isErrArg then
        { code := code, text := text, data := d, error := some text,
          reason := reason, _is_error := true }
      else
        { code := code, text := text, data := d, error := error,
          reason := reason, _is_error := isErrArg }

/-- The `is_error` property: `self._is_error or bool(self.error)`. -/
def AsyncClientResponse.is_error (r : AsyncClientResponse) : Bool :=
  r._is_error || optNonEmpty r.error

/-- The payload-level error signal: the first probed key present in the
payload decides, and it signals an error exactly when its value is truthy. -/
def payloadErrorSignal (d : List (String × PyVal)) : Bool :=
  match matchedKey d with
  | some k => truthy ((pyLookup d k).getD PyVal.null)
  | none => false

/-- Python `url.startswith(prefix)` on the character sequence. -/
def startswith (s p : String) : Bool :=
  p.data.isPrefixOf s.data

/-- Line 156 of `src/aiohttp_client/async_client.py`:
`url = url if url.startswith(self.base_url) else f"..."`. -/
def effectiveUrl (base url : String) : String :=
  if startswith url base then url else base ++ url

/-- The underlying aiohttp session as the executor sees it: only its
`closed` flag matters to `is_running` and `stop`. -/
structure SessionS where
  closed : Bool
deriving Repr, DecidableEq

/-- `AsyncClient.is_running`: `False` when `self.session is None`, else
`not self.session.closed`. -/
def AsyncClient.isRunning : Option SessionS → Bool
  | none => false
  | some s => !s.closed

/-- `AsyncClient.stop`: early-return when not running, else close the
session and drop the reference (`self.session = None`). -/
def AsyncClient.stop (st : Option SessionS) : Option SessionS :=
  if AsyncClient.isRunning st then none else st

theorem startswith_of_data_prefix (s p : String) (h : p.data <+: s.data) :
    startswith s p = true := by
  simpa [startswith, List.isPrefixOf_iff_prefix] using h

theorem str_append_assoc (a b c : String) : a ++ b ++ c = a ++ (b ++ c) := by
  apply String.ext
  simp [String.data_append, List.append_assoc]

theorem str_append_left_ne_empty (a b : String) (ha : a ≠ "") : a ++ b ≠ "" := by
  intro h
  apply ha
  have hd : a.data ++ b.data = ([] : List Char) := by
    have h2 := congrArg String.data h
    rwa [String.data_append] at h2
  have h3 : a.data = [] := (List.append_eq_nil.mp hd).1
  apply String.ext
  simpa using h3

/-- Exception classes the executor can encounter.  The seven named classes are
exactly those appearing in the source's retry list and except clauses;
`typeError` stands for the builtin `TypeError` (raised by `async with None`),
`otherException` for any other `Exception` subclass, and `keyboardInterrupt`
for a `BaseException` outside the `Exception` tree. -/
inductive ExcClass where
  | jsonDecodeError
  | contentTypeError
  | timeoutError
  | connectionTimeoutError
  | clientResponseError
  | clientError
  | clientConnectionError
  | typeError
  | otherException
  | keyboardInterrupt
deriving Repr, DecidableEq

/-- Python `e.__class__.__name__`. -/
def clsName : ExcClass → String
  | ExcClass.jsonDecodeError => "JSONDecodeError"
  | ExcClass.contentTypeError => "ContentTypeError"
  | ExcClass.timeoutError => "TimeoutError"
  | ExcClass.connectionTimeoutError => "ConnectionTimeoutError"
  | ExcClass.clientResponseError => "ClientResponseError"
  | ExcClass.clientError => "ClientError"
  | ExcClass.clientConnectionError => "ClientConnectionError"
  | ExcClass.typeError => "TypeError"
  | ExcClass.otherException => "Exception"
  | ExcClass.keyboardInterrupt => "KeyboardInterrupt"

/-- The class together with all its ancestors among the tracked classes,
transcribed from the aiohttp / asyncio / json class hierarchy:
`ContentTypeError < ClientResponseError < ClientError`,
`ConnectionTimeoutError < ServerTimeoutError < ServerConnectionError <
ClientConnectionError < ClientError` and `ServerTimeoutError <
asyncio.TimeoutError`.  `isinstance` checks membership here. -/
def ancestors : ExcClass → List ExcClass
  | ExcClass.jsonDecodeError => [ExcClass.jsonDecodeError]
  | ExcClass.contentTypeError =>
      [ExcClass.contentTypeError, ExcClass.clientResponseError, ExcClass.clientError]
  | ExcClass.timeoutError => [ExcClass.timeoutError]
  | ExcClass.connectionTimeoutError =>
      [ExcClass.connectionTimeoutError, ExcClass.timeoutError,
       ExcClass.clientConnectionError, ExcClass.clientError]
  | ExcClass.clientResponseError => [ExcClass.clientResponseError, ExcClass.clientError]
  | ExcClass.clientError => [ExcClass.clientError]
  | ExcClass.clientConnectionError => [ExcClass.clientConnectionError, ExcClass.clientError]
  | ExcClass.typeError => [ExcClass.typeError]
  | ExcClass.otherException => [ExcClass.otherException]
  | ExcClass.keyboardInterrupt => [ExcClass.keyboardInterrupt]

/-- An exception instance: its class, its `status` attribute (meaningful for
the `ClientResponseError` family; the source reads `e.status`), and the
rendering Python would produce for `str(e)`. -/
structure ExcInfo where
  cls : ExcClass
  status : Nat := 0
  render : String := ""
deriving Repr, DecidableEq

/-- The client configuration fixed by `AsyncClient.__init__`, with the
source's defaults.  `retry_timeout` is `None`-able: `None` selects
exponential backoff.  Durations are rationals (Python floats stand in). -/
structure Config where
  base_url : String := ""
  rate_limit : Option Nat := none
  max_attempts : Nat := 3
  retry_timeout : Option ℚ := some 10
  allow_timeout_error_retry : Bool := true
  allow_status_error_retry : Bool := false
  allow_http_error_retry : Bool := false
  allow_json_decode_error_retry : Bool := false
  allow_too_many_reqs_retry : Bool := false
deriving Repr, DecidableEq

/-- `self.use_request_limit = self.rate_limit is not None`. -/
def use_request_limit (c : Config) : Bool := c.rate_limit.isSome

/-- Lines 67-75: `self.retryable_errors = list(filter(None, [...]))`, in the
source's order. -/
def retryable_errors (c : Config) : List ExcClass :=
  ([ if c.allow_json_decode_error_retry then some ExcClass.jsonDecodeError else none,
     if c.allow_json_decode_error_retry then some ExcClass.contentTypeError else none,
     if c.allow_timeout_error_retry then some ExcClass.timeoutError else none,
     if c.allow_timeout_error_retry then some ExcClass.connectionTimeoutError else none,
     if c.allow_status_error_retry then some ExcClass.clientResponseError else none,
     if c.allow_http_error_retry then some ExcClass.clientError else none,
     if c.allow_timeout_error_retry then some ExcClass.clientConnectionError else none
   ]).filterMap id

/-- `isinstance(e, tuple(self.retryable_errors))`. -/
def isRetryable (c : Config) (e : ExcInfo) : Bool :=
  (retryable_errors c).any (fun k => (ancestors e.cls).contains k)

/-- Outcome of `AsyncClient._retry`: either a truthy fail message (the caller
then returns a failed response) or `None` after having slept `wait` seconds
(`cont`), letting the attempt loop continue. -/
inductive RetryOutcome where
  | stop (failMessage : String)
  | cont (wait : ℚ)
deriving Repr, DecidableEq

/-- `f"{error_name} {str(e)} in {method} method. kwargs: {kwargs}"`. -/
def mainMessage (e : ExcInfo) (method kwargs : String) : String :=
  clsName e.cls ++ " " ++ e.render ++ " in " ++ method ++ " method. kwargs: " ++ kwargs

/-- Lines 105-133, `AsyncClient._retry`: the retry decision for exception `e`
on attempt `attempt` (1-indexed).  The `asyncio.sleep` performed before
returning `None` is reported as the payload of `cont`. -/
def retryStep (c : Config) (e : ExcInfo) (attempt : Nat) (method kwargs : String) :
    RetryOutcome :=
  let main_message := mainMessage e method kwargs
  if !(isRetryable c e) then
    RetryOutcome.stop ("Non-retryable error: " ++ main_message)
  else if attempt = c.max_attempts then
    RetryOutcome.stop ("Failed after attempting " ++ toString attempt ++ "/" ++
      toString c.max_attempts ++ " times. " ++ main_message)
  else if attempt < c.max_attempts then
    RetryOutcome.cont (c.retry_timeout.getD ((2 : ℚ) ^ attempt))
  else
    RetryOutcome.stop main_message

/-- Dispatch of `except aiohttp.ClientResponseError as e:`. -/
def caughtByClause1 (e : ExcInfo) : Bool :=
  (ancestors e.cls).contains ExcClass.clientResponseError

/-- The classes of the second except clause, in the source's order. -/
def clause2Classes : List ExcClass :=
  [ExcClass.jsonDecodeError, ExcClass.contentTypeError, ExcClass.timeoutError,
   ExcClass.connectionTimeoutError, ExcClass.clientError, ExcClass.clientConnectionError]

/-- Dispatch of the second except clause. -/
def caughtByClause2 (e : ExcInfo) : Bool :=
  clause2Classes.any (fun k => (ancestors e.cls).contains k)

/-- What one iteration of the try block observes from the environment:
either the whole body up to `response.json()` succeeded, or some await
raised `e`.  `bodyText` is the value `text = await response.text()` had
assigned before the raise, if that assignment was reached (exceptions raised
by `session.request` itself, or by `response.text()`, carry `none`; the
status error raised by `raise_for_status()` and decode errors from
`response.json()` always carry `some`, because the body is read first). -/
inductive AttemptOutcome where
  | ok (status : Nat) (text : String) (data : List (String × PyVal)) (reason : String)
  | exc (e : ExcInfo) (bodyText : Option String)
deriving Repr, DecidableEq

/-- What an except clause does with the caught exception: return a response,
raise `NameError` (the first clause interpolates the local `text`, which may
be unbound), or proceed to the next attempt after an optional sleep. -/
inductive StepOut where
  | done (r : AsyncClientResponse)
  | nameErr
  | again (wait : Option ℚ)
deriving Repr, DecidableEq

/-- Lines 169-183: the three except clauses of `_request`.  `textVar` is the
current value of the local variable `text` (from this attempt if the body
was read, else left over from an earlier attempt, else unbound).  In the
first clause the walrus test `if fail_message := ...` checks truthiness of
the returned message, and the response text interpolates `text`. -/
def handleExc (c : Config) (method kwargs : String) (e : ExcInfo)
    (textVar : Option String) (attempt : Nat) : StepOut :=
  if caughtByClause1 e then
    if e.status == 429 && c.allow_too_many_reqs_retry then
      match retryStep c e attempt method kwargs with
      | RetryOutcome.stop m =>
          if m = "" then StepOut.again none
          else
            match textVar with
            | none => StepOut.nameErr
            | some t =>
                StepOut.done (mkResponse e.status (m ++ ". text: " ++ t) none none
                  "Too Many Requests" true)
      | RetryOutcome.cont w => StepOut.again (some w)
    else
      match retryStep c e attempt method kwargs with
      | RetryOutcome.stop m =>
          if m = "" then StepOut.again none
          else
            match textVar with
            | none => StepOut.nameErr
            | some t =>
                StepOut.done (mkResponse e.status (m ++ ". text: " ++ t) none none "" true)
      | RetryOutcome.cont w => StepOut.again (some w)
  else if caughtByClause2 e then
    match retryStep c e attempt method kwargs with
    | RetryOutcome.stop m =>
        if m = "" then StepOut.again none
        else StepOut.done (mkResponse 0 m none none "" true)
    | RetryOutcome.cont w => StepOut.again (some w)
  else
    StepOut.done (mkResponse 0 ("BaseException in " ++ method ++ " request - " ++
      clsName e.cls ++ ": " ++ e.render ++ ". kwargs: " ++ kwargs) none none "" true)

/-- The observable end of `_request`: a returned response, a propagated
exception, or the Python `None` that results when the attempt loop exhausts
without returning.  `attemptsMade` counts started attempts, `waits` the
sleeps performed between attempts. -/
inductive ExecResult where
  | ret (r : AsyncClientResponse) (attemptsMade : Nat) (waits : List ℚ)
  | raised (excName : String) (attemptsMade : Nat) (waits : List ℚ)
  | noReturn (attemptsMade : Nat) (waits : List ℚ)
deriving Repr, DecidableEq

/-- The rendering CPython 3.12 gives `str` of the `TypeError` raised by
`async with None` (the claims never depend on this exact text). -/
def noneAcmRender : String :=
  "object NoneType can not be used in async with expression"

/-- Lines 159-183: the attempt loop `for attempt in range(1, max_attempts + 1)`,
with `fuel` the number of remaining iterations and `attempt` the 1-indexed
counter.  Entering the scoped gate with `use_request_limit` true while
`self.limiter` is `None` (i.e. `rate_limit` unset) raises a `TypeError`
inside the try block, which the `except BaseException` clause converts. -/
def runAttempts (c : Config) (method urlEff kwargs : String) (useLimit : Bool)
    (t : String → Nat → AttemptOutcome) :
    Nat → Nat → Option String → List ℚ → ExecResult
  | 0, attempt, _, waits => ExecResult.noReturn (attempt - 1) waits
  | fuel + 1, attempt, textVar, waits =>
    if useLimit && c.rate_limit.isNone then
      ExecResult.ret (mkResponse 0 ("BaseException in " ++ method ++ " request - TypeError: " ++
        noneAcmRender ++ ". kwargs: " ++ kwargs) none none "" true) attempt waits
    else
      match t urlEff attempt with
      | AttemptOutcome.ok status text data reason =>
          ExecResult.ret (mkResponse status text (some data) none reason false) attempt waits
      | AttemptOutcome.exc e bodyText =>
          let textVar' : Option String :=
            match bodyText with
            | some s => some s
            | none => textVar
          match handleExc c method kwargs e textVar' attempt with
          | StepOut.done r => ExecResult.ret r attempt waits
          | StepOut.nameErr => ExecResult.raised "NameError" attempt waits
          | StepOut.again w =>
              runAttempts c method urlEff kwargs useLimit t fuel (attempt + 1) textVar'
                (waits ++ w.toList)

/-- Lines 135-183, `AsyncClient._request`: resolve the effective URL and the
effective rate-limit flag, then run the attempt loop.  The environment is the
`t` function giving each attempt's outcome at the requested URL. -/
def executeRequest (c : Config) (method url : String) (useLimitOverride : Option Bool)
    (kwargs : String) (t : String → Nat → AttemptOutcome) : ExecResult :=
  let urlEff := effectiveUrl c.base_url url
  let useLimit := useLimitOverride.getD (use_request_limit c)
  runAttempts c method urlEff kwargs useLimit t c.max_attempts 1 none []

/-- Public `get` method (delegates to `_request` with method "GET"). -/
def AsyncClient.get (c : Config) (url : String) (o : Option Bool) (kwargs : String)
    (t : String → Nat → AttemptOutcome) : ExecResult :=
  executeRequest c "GET" url o kwargs t

/-- Public generic `request` method. -/
def AsyncClient.request (c : Config) (method url : String) (o : Option Bool) (kwargs : String)
    (t : String → Nat → AttemptOutcome) : ExecResult :=
  executeRequest c method url o kwargs t

theorem mkResponse_forced_noData_is_error (code : Nat) (text reason : String) :
    (mkResponse code text none none reason true).is_error = true := rfl

theorem mkResponse_forced_noData_text (code : Nat) (text reason : String) :
    (mkResponse code text none none reason true).text = text := rfl

/-- C1: For every constructed Response, `is_error` is true if and only if the
forced-error flag is true, or the error argument (`error_message`) is
non-empty, or the payload maps one of the keys `error`, `errors`,
`error_message` to a non-empty value, the keys being probed in that
enumeration order with the first present key deciding; and for every payload
with a non-empty string `x` under `"error"`, `is_error` is true and the
derived error equals `x`, regardless of status code. -/
theorem C1_is_error_iff :
    (∀ (code : Nat) (text : String) (data : List (String × PyVal)) (err : Option String)
       (reason : String) (forced : Bool),
       (mkResponse code text (some data) err reason forced).is_error
         = (forced || optNonEmpty err || payloadErrorSignal data))
  ∧ (∀ x : String, x ≠ "" →
     ∀ (code : Nat) (text : String) (data : List (String × PyVal)) (err : Option String)
       (reason : String) (forced : Bool),
       pyLookup data "error" = some (PyVal.str x) →
       (mkResponse code text (some data) err reason forced).is_error = true
       ∧ (mkResponse code text (some data) err reason forced).error = some x) := by
  constructor
  · intro code text data err reason forced
    unfold mkResponse payloadErrorSignal AsyncClientResponse.is_error
    cases h : matchedKey data with
    | none =>
        cases forced <;> simp [h, optNonEmpty]
    | some k =>
        cases ht : truthy ((pyLookup data k).getD PyVal.null) <;>
          simp [h, ht, optNonEmpty, Bool.or_assoc]
  · intro x hx code text data err reason forced hlook
    have hm : matchedKey data = some "error" := by
      simp [matchedKey, errorKeys, List.find?, hlook]
    have hx' : (x != "") = true := by simpa using hx
    constructor
    · unfold mkResponse AsyncClientResponse.is_error
      simp [hm, hlook, truthy, hx']
    · unfold mkResponse
      simp [hm, hlook, truthy, hx', pyStr]

theorem C1_witness :
    ("x" : String) ≠ ""
    ∧ pyLookup [("error", PyVal.str "x")] "error" = some (PyVal.str "x")
    ∧ (mkResponse 500 "t" (some [("error", PyVal.str "x")]) none "Server Error" false).is_error
        = true
    ∧ (mkResponse 500 "t" (some [("error", PyVal.str "x")]) none "Server Error" false).error
        = some "x"
    ∧ (mkResponse 200 "t" (some [("error", PyVal.str "x")]) none "OK" false).is_error
        = (false || optNonEmpty none || payloadErrorSignal [("error", PyVal.str "x")]) := by
  refine ⟨by decide, rfl, ?_, ?_, ?_⟩
  · exact (C1_is_error_iff.2 "x" (by decide) 500 "t" [("error", PyVal.str "x")] none
      "Server Error" false rfl).1
  · exact (C1_is_error_iff.2 "x" (by decide) 500 "t" [("error", PyVal.str "x")] none
      "Server Error" false rfl).2
  · exact C1_is_error_iff.1 200 "t" [("error", PyVal.str "x")] none "OK" false

/-- C10: every Response constructed with the forced-error flag set has
`is_error` true whatever the payload holds; and when none of the probed keys
is present in the payload, the derived error equals the `text` argument. -/
theorem C10_forced_error (code : Nat) (text : String)
    (data : Option (List (String × PyVal))) (err : Option String) (reason : String) :
    (mkResponse code text data err reason true).is_error = true
  ∧ ((∀ k ∈ errorKeys, pyLookup (data.getD []) k = none) →
      (mkResponse code text data err reason true).error = some text) := by
  constructor
  · unfold mkResponse AsyncClientResponse.is_error
    cases h : matchedKey (data.getD []) with
    | none => simp [h]
    | some k =>
        cases ht : truthy ((pyLookup (data.getD []) k).getD PyVal.null) <;> simp [h, ht]
  · intro hk
    have hm : matchedKey (data.getD []) = none := by
      unfold matchedKey
      rw [List.find?_eq_none]
      intro k hkmem
      simp [hk k hkmem]
    simp [mkResponse, hm]

theorem C10_witness :
    (∀ k ∈ errorKeys, pyLookup ((some [("ok", PyVal.bool true)]).getD []) k = none)
    ∧ (mkResponse 0 "boom" (some [("ok", PyVal.bool true)]) none "" true).is_error = true
    ∧ (mkResponse 0 "boom" (some [("ok", PyVal.bool true)]) none "" true).error = some "boom" := by
  have hk : ∀ k ∈ errorKeys, pyLookup ((some [("ok", PyVal.bool true)]).getD []) k = none := by
    decide
  exact ⟨hk, (C10_forced_error 0 "boom" (some [("ok", PyVal.bool true)]) none "").1,
    (C10_forced_error 0 "boom" (some [("ok", PyVal.bool true)]) none "").2 hk⟩

/-- C9: `stop()` is idempotent: a second `stop` is a no-op, after `stop` the
client is not running, and `stop` on a non-running client changes nothing. -/
theorem C9_stop_idempotent (st : Option SessionS) :
    AsyncClient.stop (AsyncClient.stop st) = AsyncClient.stop st
  ∧ AsyncClient.isRunning (AsyncClient.stop st) = false
  ∧ (AsyncClient.isRunning st = false → AsyncClient.stop st = st) := by
  cases st with
  | none => exact ⟨rfl, rfl, fun _ => rfl⟩
  | some s =>
      cases s with
      | mk closed =>
          cases closed with
          | true => exact ⟨rfl, rfl, fun _ => rfl⟩
          | false =>
              refine ⟨rfl, rfl, fun h => ?_⟩
              simp [AsyncClient.isRunning] at h

theorem C9_witness :
    AsyncClient.stop (AsyncClient.stop (some { closed := false }))
        = AsyncClient.stop (some { closed := false })
    ∧ AsyncClient.stop none = none := by
  exact ⟨(C9_stop_idempotent (some { closed := false })).1,
    (C9_stop_idempotent none).2.2 rfl⟩

theorem runAttempts_transport_congr (c : Config) (method urlEff kwargs : String)
    (useLimit : Bool) (t t' : String → Nat → AttemptOutcome)
    (hagree : ∀ k, t urlEff k = t' urlEff k) :
    ∀ fuel attempt tv waits,
      runAttempts c method urlEff kwargs useLimit t fuel attempt tv waits =
        runAttempts c method urlEff kwargs useLimit t' fuel attempt tv waits := by
  intro fuel
  induction fuel with
  | zero => intro attempt tv waits; rfl
  | succ f ih =>
      intro attempt tv waits
      simp only [runAttempts]
      rw [← hagree attempt]
      split
      · rfl
      · split
        · rfl
        · split
          · rfl
          · rfl
          · apply ih

/-- C8: the effective URL is `url` itself when `url` already starts with
`base_url` and the concatenation otherwise; resolution is idempotent (no
double-prefixing), the executor consults the transport only at the resolved
URL, and the spec's two scenarios resolve to the same URL. -/
theorem C8_url_resolution :
    (∀ base url : String, startswith url base = true → effectiveUrl base url = url)
  ∧ (∀ base url : String, startswith url base = false → effectiveUrl base url = base ++ url)
  ∧ (∀ base url : String, effectiveUrl base (effectiveUrl base url) = effectiveUrl base url)
  ∧ (∀ (c : Config) (method url kwargs : String) (o : Option Bool)
       (t t' : String → Nat → AttemptOutcome),
       (∀ k, t (effectiveUrl c.base_url url) k = t' (effectiveUrl c.base_url url) k) →
       executeRequest c method url o kwargs t = executeRequest c method url o kwargs t')
  ∧ effectiveUrl "https://api.example.com" "/items" = "https://api.example.com/items"
  ∧ effectiveUrl "https://api.example.com" "https://api.example.com/items" =
      "https://api.example.com/items" := by
  refine ⟨?_, ?_, ?_, ?_, ?_, ?_⟩
  · intro base url h
    simp [effectiveUrl, h]
  · intro base url h
    simp [effectiveUrl, h]
  · intro base url
    by_cases h : startswith url base = true
    · simp [effectiveUrl, h]
    · have h' : startswith url base = false := by simpa using h
      have hp : startswith (base ++ url) base = true := by
        apply startswith_of_data_prefix
        rw [String.data_append]
        exact List.prefix_append base.data url.data
      simp [effectiveUrl, h', hp]
  · intro c method url kwargs o t t' hagree
    unfold executeRequest
    exact runAttempts_transport_congr c method (effectiveUrl c.base_url url) kwargs
      ((o.getD (use_request_limit c))) t t' hagree c.max_attempts 1 none []
  · decide
  · decide

theorem C8_witness :
    effectiveUrl "https://api.example.com" "/items" = "https://api.example.com" ++ "/items"
    ∧ effectiveUrl "https://api.example.com" "https://api.example.com/items" =
        "https://api.example.com/items" := by
  exact ⟨C8_url_resolution.2.1 "https://api.example.com" "/items" (by decide),
    C8_url_resolution.2.2.2.2.2⟩

/-- Config for the 429 scenario: `allow_too_many_reqs_retry` on, generic
status retry off (its default), fixed zero retry wait. -/
def cfgC2 : Config := { allow_too_many_reqs_retry := true, retry_timeout := some 0 }

/-- A 429 status error as raised by `raise_for_status`. -/
def exc429 : ExcInfo := { cls := ExcClass.clientResponseError, status := 429, render := "429" }

/-- Transport that answers every attempt with the 429 status error, body
text already read. -/
def t429 : String → Nat → AttemptOutcome :=
  fun _ _ => AttemptOutcome.exc exc429 (some "rate limited")

/-- C2: with `allow_too_many_reqs_retry = true` and the generic status flag
off, a 429 status error is NOT retried: `_retry` still consults the generic
retryable list, so the very first attempt returns a non-retryable failure
(the flag only fixes the reason to "Too Many Requests").  Only when the
generic status flag is also on is the request retried to exhaustion. -/
theorem C2_429_flag_gates_reason_not_retry :
    executeRequest cfgC2 "GET" "/a" none "q" t429 =
      ExecResult.ret (mkResponse 429
        ("Non-retryable error: ClientResponseError 429 in GET method. kwargs: q" ++
          ". text: rate limited") none none "Too Many Requests" true) 1 []
  ∧ executeRequest { cfgC2 with allow_status_error_retry := true } "GET" "/a" none "q" t429 =
      ExecResult.ret (mkResponse 429
        ("Failed after attempting 3/3 times. ClientResponseError 429 in GET method. kwargs: q" ++
          ". text: rate limited") none none "Too Many Requests" true) 3 [0, 0] := by
  constructor
  · decide
  · decide

/-- A `ClientResponseError` raised by `session.request` itself (e.g.
`aiohttp.TooManyRedirects`), before `text = await response.text()` runs. -/
def excRedirect : ExcInfo :=
  { cls := ExcClass.clientResponseError, status := 0, render := "too many redirects" }

/-- C3: when a `ClientResponseError` is raised during dispatch, before the
local `text` is bound, the handler's interpolation of `text` raises
`NameError`, which propagates to the caller instead of a failed Response. -/
theorem C3_unbound_text_propagates :
    AsyncClient.get {} "/a" none "q" (fun _ _ => AttemptOutcome.exc excRedirect none) =
      ExecResult.raised "NameError" 1 [] := by
  decide

/-- Transport that always succeeds instantly. -/
def tOk : String → Nat → AttemptOutcome :=
  fun _ _ => AttemptOutcome.ok 200 "ok" [] "OK"

/-- C4 counterexample: on a client whose `rate_limit` is unset, force-enabling
the gate does not behave as if limiting were off: `async with None` raises a
`TypeError` that the catch-all converts into an immediate failed Response,
and the request is never dispatched. -/
theorem C4_counterexample :
    executeRequest {} "GET" "/x" (some true) "q" tOk ≠
      executeRequest {} "GET" "/x" (some false) "q" tOk
  ∧ executeRequest {} "GET" "/x" (some true) "q" tOk =
      ExecResult.ret (mkResponse 0 ("BaseException in GET request - TypeError: " ++
        noneAcmRender ++ ". kwargs: q") none none "" true) 1 []
  ∧ executeRequest {} "GET" "/x" (some false) "q" tOk =
      ExecResult.ret (mkResponse 200 "ok" (some []) none "OK" false) 1 [] := by
  refine ⟨by decide, by decide, by decide⟩

/-- C4 amended: with `rate_limit` unset, the default and the force-disabled
per-call override are genuine no-ops (identical runs); force-enabling the
gate instead makes the first attempt fail immediately with the converted
`TypeError`, yielding a failed Response without dispatching the request. -/
theorem C4_no_limiter (c : Config) (method url kwargs : String)
    (t : String → Nat → AttemptOutcome)
    (hrl : c.rate_limit = none) (hN : 1 ≤ c.max_attempts) :
    executeRequest c method url none kwargs t = executeRequest c method url (some false) kwargs t
  ∧ executeRequest c method url (some true) kwargs t =
      ExecResult.ret (mkResponse 0 ("BaseException in " ++ method ++ " request - TypeError: " ++
        noneAcmRender ++ ". kwargs: " ++ kwargs) none none "" true) 1 []
  ∧ (mkResponse 0 ("BaseException in " ++ method ++ " request - TypeError: " ++
      noneAcmRender ++ ". kwargs: " ++ kwargs) none none "" true).is_error = true := by
  refine ⟨?_, ?_, rfl⟩
  · simp [executeRequest, use_request_limit, hrl]
  · obtain ⟨m, hm⟩ : ∃ m, c.max_attempts = m + 1 := ⟨c.max_attempts - 1, by omega⟩
    simp [executeRequest, hm, runAttempts, hrl]

theorem C4_no_limiter_witness :
    executeRequest {} "GET" "/x" none "q" tOk = executeRequest {} "GET" "/x" (some false) "q" tOk
  ∧ executeRequest {} "GET" "/x" (some true) "q" tOk =
      ExecResult.ret (mkResponse 0 ("BaseException in GET request - TypeError: " ++
        noneAcmRender ++ ". kwargs: q") none none "" true) 1 []
  ∧ (mkResponse 0 ("BaseException in GET request - TypeError: " ++
      noneAcmRender ++ ". kwargs: q") none none "" true).is_error = true := by
  exact C4_no_limiter {} "GET" "/x" "q" tOk rfl (by decide)

theorem gate_off_default (c : Config) : (use_request_limit c && c.rate_limit.isNone) = false := by
  cases h : c.rate_limit <;> simp [use_request_limit, h]

/-- The retryable list as a function of the four feature flags alone (in the
order json, timeout, status, http); `retryable_errors` factors through it. -/
def retryClasses (fJ fT fS fH : Bool) : List ExcClass :=
  ([ if fJ then some ExcClass.jsonDecodeError else none,
     if fJ then some ExcClass.contentTypeError else none,
     if fT then some ExcClass.timeoutError else none,
     if fT then some ExcClass.connectionTimeoutError else none,
     if fS then some ExcClass.clientResponseError else none,
     if fH then some ExcClass.clientError else none,
     if fT then some ExcClass.clientConnectionError else none
   ]).filterMap id

theorem retryClasses_caught (fJ fT fS fH : Bool) (cls : ExcClass)
    (h : (retryClasses fJ fT fS fH).any (fun k => (ancestors cls).contains k) = true) :
    ((ancestors cls).contains ExcClass.clientResponseError
      || clause2Classes.any (fun k => (ancestors cls).contains k)) = true := by
  revert h
  cases fJ <;> cases fT <;> cases fS <;> cases fH <;> cases cls <;> decide

theorem retryable_caught (c : Config) (e : ExcInfo) (hr : isRetryable c e = true) :
    (caughtByClause1 e || caughtByClause2 e) = true := by
  have h1 : isRetryable c e =
      (retryClasses c.allow_json_decode_error_retry c.allow_timeout_error_retry
        c.allow_status_error_retry c.allow_http_error_retry).any
        (fun k => (ancestors e.cls).contains k) := rfl
  rw [h1] at hr
  exact retryClasses_caught _ _ _ _ e.cls hr

/-- The exhaustion message `_retry` returns on the final attempt. -/
def exhaustStopMsg (c : Config) (e : ExcInfo) (method kwargs : String) : String :=
  "Failed after attempting " ++ toString c.max_attempts ++ "/" ++ toString c.max_attempts ++
    " times. " ++ mainMessage e method kwargs

theorem retryStep_exhaust (c : Config) (e : ExcInfo) (method kwargs : String)
    (hr : isRetryable c e = true) :
    retryStep c e c.max_attempts method kwargs =
      RetryOutcome.stop (exhaustStopMsg c e method kwargs) := by
  unfold retryStep exhaustStopMsg
  simp [hr]

theorem retryStep_cont (c : Config) (e : ExcInfo) (method kwargs : String) (attempt : Nat)
    (hr : isRetryable c e = true) (hlt : attempt < c.max_attempts) :
    retryStep c e attempt method kwargs =
      RetryOutcome.cont (c.retry_timeout.getD ((2 : ℚ) ^ attempt)) := by
  unfold retryStep
  have hne : ¬(attempt = c.max_attempts) := by omega
  simp [hr, hne, hlt]

theorem exhaustStopMsg_ne_empty (c : Config) (e : ExcInfo) (method kwargs : String) :
    exhaustStopMsg c e method kwargs ≠ "" := by
  unfold exhaustStopMsg
  apply str_append_left_ne_empty
  apply str_append_left_ne_empty
  apply str_append_left_ne_empty
  apply str_append_left_ne_empty
  apply str_append_left_ne_empty
  decide

theorem nonRetryableMsg_ne_empty (e : ExcInfo) (method kwargs : String) :
    ("Non-retryable error: " ++ mainMessage e method kwargs) ≠ "" :=
  str_append_left_ne_empty _ _ (by decide)

/-- The failed response `_request` returns when a retryable error persists
through the final attempt: first except clause when the exception is a
`ClientResponseError` (reason fixed when the 429 branch is active), second
clause otherwise. -/
def finalFailResponse (c : Config) (e : ExcInfo) (method kwargs tN : String) :
    AsyncClientResponse :=
  if caughtByClause1 e then
    if e.status == 429 && c.allow_too_many_reqs_retry then
      mkResponse e.status (exhaustStopMsg c e method kwargs ++ ". text: " ++ tN) none none
        "Too Many Requests" true
    else
      mkResponse e.status (exhaustStopMsg c e method kwargs ++ ". text: " ++ tN) none none
        "" true
  else
    mkResponse 0 (exhaustStopMsg c e method kwargs) none none "" true

theorem handleExc_cont (c : Config) (method kwargs : String) (e : ExcInfo) (tv : Option String)
    (attempt : Nat) (hr : isRetryable c e = true) (hlt : attempt < c.max_attempts) :
    handleExc c method kwargs e tv attempt =
      StepOut.again (some (c.retry_timeout.getD ((2 : ℚ) ^ attempt))) := by
  have hstep := retryStep_cont c e method kwargs attempt hr hlt
  unfold handleExc
  cases h1 : caughtByClause1 e with
  | false =>
      cases h2 : caughtByClause2 e with
      | false =>
          have hcc := retryable_caught c e hr
          rw [h1, h2] at hcc
          simp at hcc
      | true => simp [h1, h2, hstep]
  | true => simp [h1, hstep]

theorem handleExc_exhaust (c : Config) (method kwargs : String) (e : ExcInfo) (tN : String)
    (hr : isRetryable c e = true) :
    handleExc c method kwargs e (some tN) c.max_attempts =
      StepOut.done (finalFailResponse c e method kwargs tN) := by
  have hstep := retryStep_exhaust c e method kwargs hr
  have hne := exhaustStopMsg_ne_empty c e method kwargs
  unfold handleExc finalFailResponse
  cases h1 : caughtByClause1 e with
  | false =>
      cases h2 : caughtByClause2 e with
      | false =>
          have hcc := retryable_caught c e hr
          rw [h1, h2] at hcc
          simp at hcc
      | true => simp [h1, h2, hstep, hne]
  | true =>
      cases h4 : (e.status == 429 && c.allow_too_many_reqs_retry) with
      | false => simp [h1, h4, hstep, hne]
      | true => simp [h1, h4, hstep, hne]

theorem runAttempts_allFail (c : Config) (method urlEff kwargs : String) (useLimit : Bool)
    (t : String → Nat → AttemptOutcome) (e : ExcInfo) (bt : Nat → String)
    (hgate : (useLimit && c.rate_limit.isNone) = false)
    (ht : ∀ k, t urlEff k = AttemptOutcome.exc e (some (bt k)))
    (hr : isRetryable c e = true) :
    ∀ fuel, 1 ≤ fuel → ∀ attempt, attempt + fuel = c.max_attempts + 1 →
    ∀ (tv : Option String) (waits : List ℚ),
      runAttempts c method urlEff kwargs useLimit t fuel attempt tv waits =
        ExecResult.ret (finalFailResponse c e method kwargs (bt c.max_attempts)) c.max_attempts
          (waits ++ (List.range' attempt (fuel - 1)).map
            (fun k => c.retry_timeout.getD ((2 : ℚ) ^ k))) := by
  intro fuel
  induction fuel with
  | zero => intro h; exact absurd h (by omega)
  | succ f ih =>
      intro _ attempt hsum tv waits
      simp only [runAttempts]
      rw [ht attempt]
      simp only [hgate, Bool.false_eq_true, if_false]
      rcases Nat.eq_zero_or_pos f with hf | hf
      · subst hf
        have hA : attempt = c.max_attempts := by omega
        rw [hA, handleExc_exhaust c method kwargs e (bt c.max_attempts) hr]
        simp
      · have hlt : attempt < c.max_attempts := by omega
        rw [handleExc_cont c method kwargs e (some (bt attempt)) attempt hr hlt]
        simp only [Option.toList]
        rw [ih hf (attempt + 1) (by omega) (some (bt attempt))
          (waits ++ [c.retry_timeout.getD ((2 : ℚ) ^ attempt)])]
        obtain ⟨g, hg⟩ : ∃ g, f = g + 1 := ⟨f - 1, by omega⟩
        subst hg
        simp [List.range'_succ, List.append_assoc]

theorem startswith_append (p r : String) : startswith (p ++ r) p = true := by
  apply startswith_of_data_prefix
  rw [String.data_append]
  exact List.prefix_append _ _

/-- C5: for a retryable error kind failing every attempt, `execute` performs
exactly `max_attempts` attempts, sleeps only between attempts (`N - 1`
waits, none after the final Stop), and returns a failed Response whose
message announces exhaustion "N/N". -/
theorem C5_retry_exhaustion (c : Config) (e : ExcInfo) (bt : Nat → String)
    (method url kwargs : String) (t : String → Nat → AttemptOutcome)
    (hN : 1 ≤ c.max_attempts) (hr : isRetryable c e = true)
    (ht : ∀ k, t (effectiveUrl c.base_url url) k = AttemptOutcome.exc e (some (bt k))) :
    ∃ r rest,
      executeRequest c method url none kwargs t =
        ExecResult.ret r c.max_attempts
          ((List.range' 1 (c.max_attempts - 1)).map
            (fun k => c.retry_timeout.getD ((2 : ℚ) ^ k)))
      ∧ ((List.range' 1 (c.max_attempts - 1)).map
          (fun k => c.retry_timeout.getD ((2 : ℚ) ^ k))).length = c.max_attempts - 1
      ∧ r.is_error = true
      ∧ r.text = "Failed after attempting " ++ toString c.max_attempts ++ "/" ++
          toString c.max_attempts ++ " times. " ++ rest := by
  have hrun := runAttempts_allFail c method (effectiveUrl c.base_url url) kwargs
      (use_request_limit c) t e bt (gate_off_default c) ht hr c.max_attempts hN 1
      (by omega) none []
  simp only [List.nil_append] at hrun
  have hexec : executeRequest c method url none kwargs t =
      ExecResult.ret (finalFailResponse c e method kwargs (bt c.max_attempts)) c.max_attempts
        ((List.range' 1 (c.max_attempts - 1)).map
          (fun k => c.retry_timeout.getD ((2 : ℚ) ^ k))) := hrun
  by_cases h1 : caughtByClause1 e = true
  · refine ⟨_, mainMessage e method kwargs ++ (". text: " ++ bt c.max_attempts), hexec,
      by simp, ?_, ?_⟩
    · unfold finalFailResponse
      rw [if_pos h1]
      by_cases h4 : (e.status == 429 && c.allow_too_many_reqs_retry) = true
      · rw [if_pos h4]; rfl
      · rw [if_neg h4]; rfl
    · unfold finalFailResponse
      rw [if_pos h1]
      by_cases h4 : (e.status == 429 && c.allow_too_many_reqs_retry) = true
      · rw [if_pos h4, mkResponse_forced_noData_text]
        unfold exhaustStopMsg
        simp only [str_append_assoc]
      · rw [if_neg h4, mkResponse_forced_noData_text]
        unfold exhaustStopMsg
        simp only [str_append_assoc]
  · refine ⟨_, mainMessage e method kwargs, hexec, by simp, ?_, ?_⟩
    · unfold finalFailResponse
      rw [if_neg h1]
      rfl
    · unfold finalFailResponse
      rw [if_neg h1, mkResponse_forced_noData_text]
      unfold exhaustStopMsg
      simp only [str_append_assoc]

/-- A plain timeout error: retryable under the default configuration. -/
def excTimeout : ExcInfo := { cls := ExcClass.timeoutError, render := "timed out" }

/-- Transport failing every attempt with `excTimeout`, body text read. -/
def tTimeout : String → Nat → AttemptOutcome :=
  fun _ _ => AttemptOutcome.exc excTimeout (some "tb")

theorem C5_witness :
    1 ≤ ({} : Config).max_attempts ∧ isRetryable {} excTimeout = true ∧
    (∃ r rest,
      executeRequest {} "GET" "/u" none "q" tTimeout =
        ExecResult.ret r ({} : Config).max_attempts
          ((List.range' 1 (({} : Config).max_attempts - 1)).map
            (fun k => ({} : Config).retry_timeout.getD ((2 : ℚ) ^ k)))
      ∧ ((List.range' 1 (({} : Config).max_attempts - 1)).map
          (fun k => ({} : Config).retry_timeout.getD ((2 : ℚ) ^ k))).length
            = ({} : Config).max_attempts - 1
      ∧ r.is_error = true
      ∧ r.text = "Failed after attempting " ++ toString ({} : Config).max_attempts ++ "/" ++
          toString ({} : Config).max_attempts ++ " times. " ++ rest) :=
  ⟨by decide, by decide,
    C5_retry_exhaustion {} excTimeout (fun _ => "tb") "GET" "/u" "q" tTimeout
      (by decide) (by decide) (fun _ => rfl)⟩

/-- C6: an error whose kind is not in the configured retryable set (including
unclassified exceptions) terminates `execute` after exactly one attempt with
no wait, whatever the remaining attempt budget, and the failed Response's
message opens with the non-retryable (or catch-all) indication.  Status
errors are assumed to carry the body text read before `raise_for_status`. -/
theorem C6_non_retryable (c : Config) (e : ExcInfo) (b : Option String)
    (method url kwargs : String) (t : String → Nat → AttemptOutcome)
    (hN : 1 ≤ c.max_attempts) (hr : isRetryable c e = false)
    (ht : t (effectiveUrl c.base_url url) 1 = AttemptOutcome.exc e b)
    (hb : caughtByClause1 e = true → b.isSome = true) :
    ∃ r, executeRequest c method url none kwargs t = ExecResult.ret r 1 []
      ∧ r.is_error = true
      ∧ (startswith r.text "Non-retryable error: " = true
         ∨ startswith r.text "BaseException in " = true) := by
  obtain ⟨m, hm⟩ : ∃ m, c.max_attempts = m + 1 := ⟨c.max_attempts - 1, by omega⟩
  have hstep : retryStep c e 1 method kwargs =
      RetryOutcome.stop ("Non-retryable error: " ++ mainMessage e method kwargs) := by
    unfold retryStep
    simp [hr]
  have hne := nonRetryableMsg_ne_empty e method kwargs
  have hgate := gate_off_default c
  have hstart : executeRequest c method url none kwargs t =
      runAttempts c method (effectiveUrl c.base_url url) kwargs (use_request_limit c) t
        c.max_attempts 1 none [] := rfl
  cases h1 : caughtByClause1 e with
  | true =>
      have hsome := hb h1
      obtain ⟨tb, rfl⟩ : ∃ tb, b = some tb := by
        cases b with
        | none => simp at hsome
        | some x => exact ⟨x, rfl⟩
      by_cases h4 : (e.status == 429 && c.allow_too_many_reqs_retry) = true
      · have hexec : executeRequest c method url none kwargs t =
            ExecResult.ret (mkResponse e.status
              (("Non-retryable error: " ++ mainMessage e method kwargs) ++ ". text: " ++ tb)
              none none "Too Many Requests" true) 1 [] := by
          rw [hstart, hm]
          simp only [runAttempts]
          rw [ht]
          simp [hgate, handleExc, h1, h4, hstep, hne]
        refine ⟨_, hexec, rfl, Or.inl ?_⟩
        rw [mkResponse_forced_noData_text]
        simp only [str_append_assoc]
        exact startswith_append _ _
      · have hexec : executeRequest c method url none kwargs t =
            ExecResult.ret (mkResponse e.status
              (("Non-retryable error: " ++ mainMessage e method kwargs) ++ ". text: " ++ tb)
              none none "" true) 1 [] := by
          rw [hstart, hm]
          simp only [runAttempts]
          rw [ht]
          simp [hgate, handleExc, h1, h4, hstep, hne]
        refine ⟨_, hexec, rfl, Or.inl ?_⟩
        rw [mkResponse_forced_noData_text]
        simp only [str_append_assoc]
        exact startswith_append _ _
  | false =>
      cases h2 : caughtByClause2 e with
      | true =>
          have hexec : executeRequest c method url none kwargs t =
              ExecResult.ret (mkResponse 0
                ("Non-retryable error: " ++ mainMessage e method kwargs)
                none none "" true) 1 [] := by
            rw [hstart, hm]
            simp only [runAttempts]
            rw [ht]
            simp [hgate, handleExc, h1, h2, hstep, hne]
          refine ⟨_, hexec, rfl, Or.inl ?_⟩
          rw [mkResponse_forced_noData_text]
          exact startswith_append _ _
      | false =>
          have hexec : executeRequest c method url none kwargs t =
              ExecResult.ret (mkResponse 0
                ("BaseException in " ++ method ++ " request - " ++ clsName e.cls ++ ": " ++
                  e.render ++ ". kwargs: " ++ kwargs) none none "" true) 1 [] := by
            rw [hstart, hm]
            simp only [runAttempts]
            rw [ht]
            simp [hgate, handleExc, h1, h2]
          refine ⟨_, hexec, rfl, Or.inr ?_⟩
          rw [mkResponse_forced_noData_text]
          simp only [str_append_assoc]
          exact startswith_append _ _

/-- A 500 status error: not retryable under the default configuration. -/
def exc500 : ExcInfo := { cls := ExcClass.clientResponseError, status := 500, render := "500" }

/-- Transport failing with `exc500`, body text read. -/
def t500 : String → Nat → AttemptOutcome :=
  fun _ _ => AttemptOutcome.exc exc500 (some "srv")

theorem C6_witness :
    1 ≤ ({} : Config).max_attempts ∧ isRetryable {} exc500 = false ∧
    (∃ r, executeRequest {} "GET" "/u" none "q" t500 = ExecResult.ret r 1 []
      ∧ r.is_error = true
      ∧ (startswith r.text "Non-retryable error: " = true
         ∨ startswith r.text "BaseException in " = true)) :=
  ⟨by decide, by decide,
    C6_non_retryable {} exc500 (some "srv") "GET" "/u" "q" t500
      (by decide) (by decide) rfl (fun _ => rfl)⟩

/-- C7: between attempts the wait is the fixed `retry_wait` when set; when
unset it is `2 ^ attempt_number` (wait `2` after attempt 1, `4` after attempt
2, ...), with no jitter and no cap: the executor's wait list for a failing
run is exactly the attempt-indexed schedule over attempts `1..N-1`. -/
theorem C7_backoff_schedule (c : Config) (e : ExcInfo) (bt : Nat → String)
    (method url kwargs : String) (t : String → Nat → AttemptOutcome)
    (hN : 1 ≤ c.max_attempts) (hr : isRetryable c e = true)
    (ht : ∀ k, t (effectiveUrl c.base_url url) k = AttemptOutcome.exc e (some (bt k))) :
    (∀ k, k < c.max_attempts →
       retryStep c e k method kwargs = RetryOutcome.cont (c.retry_timeout.getD ((2 : ℚ) ^ k)))
  ∧ (∃ r, executeRequest c method url none kwargs t =
        ExecResult.ret r c.max_attempts
          ((List.range' 1 (c.max_attempts - 1)).map
            (fun k => c.retry_timeout.getD ((2 : ℚ) ^ k))))
  ∧ (c.retry_timeout = none →
      (List.range' 1 (c.max_attempts - 1)).map (fun k => c.retry_timeout.getD ((2 : ℚ) ^ k))
        = (List.range' 1 (c.max_attempts - 1)).map (fun k => (2 : ℚ) ^ k))
  ∧ (∀ w : ℚ, c.retry_timeout = some w →
      (List.range' 1 (c.max_attempts - 1)).map (fun k => c.retry_timeout.getD ((2 : ℚ) ^ k))
        = List.replicate (c.max_attempts - 1) w) := by
  refine ⟨fun k hk => retryStep_cont c e method kwargs k hr hk, ?_, ?_, ?_⟩
  · have hrun := runAttempts_allFail c method (effectiveUrl c.base_url url) kwargs
        (use_request_limit c) t e bt (gate_off_default c) ht hr c.max_attempts hN 1
        (by omega) none []
    simp only [List.nil_append] at hrun
    exact ⟨_, hrun⟩
  · intro h
    simp [h]
  · intro w h
    simp [h, List.map_const', List.length_range']

/-- Backoff configuration: `retry_timeout` unset selects `2 ^ attempt`. -/
def cfgBackoff : Config := { retry_timeout := none }

/-- Transport for the backoff witness. -/
def tBackoff : String → Nat → AttemptOutcome :=
  fun _ _ => AttemptOutcome.exc excTimeout (some "tb")

theorem C7_witness :
    1 ≤ cfgBackoff.max_attempts ∧ isRetryable cfgBackoff excTimeout = true ∧
    cfgBackoff.retry_timeout = none ∧
    ((∀ k, k < cfgBackoff.max_attempts →
        retryStep cfgBackoff excTimeout k "GET" "q" =
          RetryOutcome.cont (cfgBackoff.retry_timeout.getD ((2 : ℚ) ^ k)))
    ∧ (∃ r, executeRequest cfgBackoff "GET" "/u" none "q" tBackoff =
          ExecResult.ret r cfgBackoff.max_attempts
            ((List.range' 1 (cfgBackoff.max_attempts - 1)).map
              (fun k => cfgBackoff.retry_timeout.getD ((2 : ℚ) ^ k))))
    ∧ (cfgBackoff.retry_timeout = none →
        (List.range' 1 (cfgBackoff.max_attempts - 1)).map
            (fun k => cfgBackoff.retry_timeout.getD ((2 : ℚ) ^ k))
          = (List.range' 1 (cfgBackoff.max_attempts - 1)).map (fun k => (2 : ℚ) ^ k))
    ∧ (∀ w : ℚ, cfgBackoff.retry_timeout = some w →
        (List.range' 1 (cfgBackoff.max_attempts - 1)).map
            (fun k => cfgBackoff.retry_timeout.getD ((2 : ℚ) ^ k))
          = List.replicate (cfgBackoff.max_attempts - 1) w)) :=
  ⟨by decide, by decide, rfl,
    C7_backoff_schedule cfgBackoff excTimeout (fun _ => "tb") "GET" "/u" "q" tBackoff
      (by decide) (by decide) (fun _ => rfl)⟩
